import Mathlib

/-!
Verification of the Environment Inventory Subsystem of devenv-mcp
(`src/devenv_mcp/tools/venv.py` together with its collaborators
`utils/commands.py` and `utils/platform.py`).

The Python code is shallowly embedded: the filesystem, path resolution and
subprocess execution are external collaborators, so they enter the model as
explicit parameters (a `FileSystem` record, outcome values for each spawned
subprocess).  Pure computations (version-string parsing, JSON parsing of the
`pip list --format=json` output, glob matching of `fnmatch`) are translated
into executable Lean functions.
-/

namespace DevenvMcp

/-- A resolved absolute filesystem path, as its list of segments
(`pathlib.Path`, already `expanduser().resolve()`-ed). -/
def FsPath : Type := List String

instance : DecidableEq FsPath := fun a b => List.hasDecEq a b
instance : Inhabited FsPath := ⟨([] : List String)⟩

/-- `Path.name`: the final path segment (empty for the root, as in pathlib). -/
def FsPath.name (p : FsPath) : String := List.getLastD p ""

/-- `parent / child` on paths (appending one segment). -/
def FsPath.child (p : FsPath) (seg : String) : FsPath :=
  List.append p [seg]

/-- `str(path)`: POSIX-style rendering of an absolute path. -/
def FsPath.str (p : FsPath) : String := String.append "/" (String.intercalate "/" p)

/-- The operating-system families distinguished by `PlatformHelper.get_platform`. -/
inductive OsPlatform where
  | windows
  | macos
  | linux
deriving DecidableEq

/-- The filesystem as seen by the subsystem: existence and directory checks
(`Path.exists`, `Path.is_dir`) and directory listing (`Path.iterdir`, whose
order is the directory-listing order).  All calls are side-effect free reads
of one consistent snapshot. -/
structure FileSystem where
  fexists : FsPath → Bool
  isDir : FsPath → Bool
  listDir : FsPath → List String

/-- Ambient environment of one discovery pass: platform, filesystem snapshot
and the user's home directory (`Path.home`). -/
structure Env where
  plat : OsPlatform
  fs : FileSystem
  home : FsPath

/-- `PlatformHelper.get_venv_python_path`: the interpreter executable under a
venv root (`Scripts/python.exe` on Windows, `bin/python` elsewhere).  The
source re-resolves the path; model paths are already resolved. -/
def get_venv_python_path (plat : OsPlatform) (venv_path : FsPath) : FsPath :=
  match plat with
  | .windows => (venv_path.child "Scripts").child "python.exe"
  | _ => (venv_path.child "bin").child "python"

/-- `PlatformHelper.get_venv_pip_path`: the pip executable under a venv root. -/
def get_venv_pip_path (plat : OsPlatform) (venv_path : FsPath) : FsPath :=
  match plat with
  | .windows => (venv_path.child "Scripts").child "pip.exe"
  | _ => (venv_path.child "bin").child "pip"

/-- `PlatformHelper.get_default_venv_location`: the global registry
directory `~/.venvs`. -/
def get_default_venv_location (env : Env) : FsPath :=
  env.home.child ".venvs"

/-- Python exceptions that the modelled code can raise. -/
inductive PyErr where
  | typeError
  | timeoutError
  | osError
deriving DecidableEq

/-- `CommandResult` from `utils/commands.py`. -/
structure CommandResult where
  returncode : Int
  stdout : String
  stderr : String
  command : String
deriving DecidableEq

/-- `CommandResult.success`: return code `0`. -/
def CommandResult.success (r : CommandResult) : Bool := r.returncode == 0

/-- ASCII whitespace stripped by `str.strip()` (Python also strips some
Unicode space characters, which never occur in the outputs modelled here). -/
def isPySpace (c : Char) : Bool :=
  c == ' ' || c == '\t' || c == '\n' || c == '\r' || c == '\x0b' || c == '\x0c'

/-- `str.strip()`. -/
def pyStrip (s : String) : String :=
  String.mk ((((s.data.dropWhile isPySpace).reverse.dropWhile isPySpace).reverse))

/-- `str.startswith(pre)`. -/
def pyStartswith (s pre : String) : Bool :=
  List.isPrefixOf pre.data s.data

/-- `s[n:]` (slicing by code points). -/
def pySlice (s : String) (n : Nat) : String :=
  String.mk (s.data.drop n)

/-- How one spawned subprocess behaves: it either completes within the
timeout, exceeds the timeout, or the executable cannot be spawned at all
(`FileNotFoundError`). -/
inductive SpawnBehavior where
  | completes (returncode : Int) (stdout stderr : String)
  | timesOut
  | spawnNotFound (filename : String)
  | spawnFails
deriving DecidableEq

/-- `run_command` from `utils/commands.py`, for a list-form command with
`check=False` and `shell=False` (the only form used by the venv tools):
a completed process yields a `CommandResult` with both streams stripped;
timeout expiry re-raises `asyncio.TimeoutError`; a missing executable
(`FileNotFoundError`) is converted to a result with return code 127; any
other spawn exception is uncaught and propagates. -/
def run_command (command_str : String) (b : SpawnBehavior) : Except PyErr CommandResult :=
  match b with
  | .completes rc out err =>
      .ok { returncode := rc, stdout := pyStrip out, stderr := pyStrip err,
            command := command_str }
  | .timesOut => .error .timeoutError
  | .spawnNotFound f =>
      .ok { returncode := 127, stdout := "",
            stderr := String.append "Command not found: " f, command := command_str }
  | .spawnFails => .error .osError

/-- The value `asyncio.gather(..., return_exceptions=True)` hands back for
one awaited probe: either the probe's `CommandResult`, or the exception it
raised (captured as a value, never re-thrown). -/
inductive ProbeOutcome where
  | result (r : CommandResult)
  | exn
deriving DecidableEq

/-- Outcome of awaiting one `run_command` probe under
`return_exceptions=True`. -/
def probeOutcomeOf (command_str : String) (b : SpawnBehavior) : ProbeOutcome :=
  match run_command command_str b with
  | .ok r => .result r
  | .error _ => .exn

/-- Python values produced by `json.loads` (numbers keep their raw text:
no claim depends on numeric magnitude, only on the value's shape). -/
inductive PyJson where
  | null
  | bool (b : Bool)
  | num (raw : String)
  | str (s : String)
  | arr (elems : List PyJson)
  | obj (fields : List (String × PyJson))

/-- `len(v)` for a decoded JSON value: defined for sized values (strings,
lists, dicts), a `TypeError` (`none`) otherwise. -/
def pyLen : PyJson → Option Nat
  | .str s => some s.length
  | .arr xs => some xs.length
  | .obj fs => some fs.length
  | _ => none

/-- JSON whitespace (`json.decoder.WHITESPACE`). -/
def isJsonWs (c : Char) : Bool :=
  c == ' ' || c == '\t' || c == '\n' || c == '\r'

/-- Skip JSON whitespace. -/
def skipWs (cs : List Char) : List Char :=
  cs.dropWhile isJsonWs

/-- Value of one hexadecimal digit. -/
def hexVal (c : Char) : Option Nat :=
  if c.isDigit then some (c.toNat - 48)
  else if 97 ≤ c.toNat && c.toNat ≤ 102 then some (c.toNat - 87)
  else if 65 ≤ c.toNat && c.toNat ≤ 70 then some (c.toNat - 55)
  else none

/-- Decode the body of a JSON string (opening quote already consumed):
returns the decoded characters and the input after the closing quote.
Lone-surrogate escapes are replaced by U+FFFD (Lean characters are scalar
values; no input in scope contains them). -/
def parseStrChars : List Char → Option (List Char × List Char)
  | [] => none
  | '"' :: rest => some ([], rest)
  | '\\' :: '"' :: rest => (fun pr => ('"' :: pr.1, pr.2)) <$> parseStrChars rest
  | '\\' :: '\\' :: rest => (fun pr => ('\\' :: pr.1, pr.2)) <$> parseStrChars rest
  | '\\' :: '/' :: rest => (fun pr => ('/' :: pr.1, pr.2)) <$> parseStrChars rest
  | '\\' :: 'b' :: rest => (fun pr => ('\x08' :: pr.1, pr.2)) <$> parseStrChars rest
  | '\\' :: 'f' :: rest => (fun pr => ('\x0c' :: pr.1, pr.2)) <$> parseStrChars rest
  | '\\' :: 'n' :: rest => (fun pr => ('\n' :: pr.1, pr.2)) <$> parseStrChars rest
  | '\\' :: 'r' :: rest => (fun pr => ('\r' :: pr.1, pr.2)) <$> parseStrChars rest
  | '\\' :: 't' :: rest => (fun pr => ('\t' :: pr.1, pr.2)) <$> parseStrChars rest
  | '\\' :: 'u' :: a :: b :: c :: d :: rest => do
      let ha ← hexVal a
      let hb ← hexVal b
      let hc ← hexVal c
      let hd ← hexVal d
      let code := ((ha * 16 + hb) * 16 + hc) * 16 + hd
      let ch := if 0xD800 ≤ code && code ≤ 0xDFFF then '�' else Char.ofNat code
      (fun pr => (ch :: pr.1, pr.2)) <$> parseStrChars rest
  | '\\' :: _ => none
  | c :: rest =>
      if c.toNat < 0x20 then none
      else (fun pr => (c :: pr.1, pr.2)) <$> parseStrChars rest

/-- The integer part of a JSON number: `0`, or a nonzero digit followed by
digits. -/
def parseIntPart : List Char → Option (List Char × List Char)
  | '0' :: rest => some (['0'], rest)
  | c :: rest =>
      if c.isDigit then
        some (c :: rest.takeWhile Char.isDigit, rest.dropWhile Char.isDigit)
      else none
  | [] => none

/-- A JSON number per the `json` module's grammar
(`-? (0 | [1-9][0-9]*) (\.[0-9]+)? ([eE][+-]?[0-9]+)?`); a dot or exponent
marker not followed by digits is left unconsumed, as the regex would. -/
def parseNumber (cs : List Char) : Option (String × List Char) := do
  let (neg, cs1) : List Char × List Char :=
    match cs with
    | '-' :: r => (['-'], r)
    | _ => ([], cs)
  let (ip, cs2) ← parseIntPart cs1
  let (fp, cs3) : List Char × List Char :=
    match cs2 with
    | '.' :: r =>
        let ds := r.takeWhile Char.isDigit
        if ds.isEmpty then ([], cs2) else ('.' :: ds, r.dropWhile Char.isDigit)
    | _ => ([], cs2)
  let (ep, cs4) : List Char × List Char :=
    match cs3 with
    | e :: '+' :: r =>
        if e == 'e' || e == 'E' then
          let ds := r.takeWhile Char.isDigit
          if ds.isEmpty then ([], cs3) else (e :: '+' :: ds, r.dropWhile Char.isDigit)
        else ([], cs3)
    | e :: '-' :: r =>
        if e == 'e' || e == 'E' then
          let ds := r.takeWhile Char.isDigit
          if ds.isEmpty then ([], cs3) else (e :: '-' :: ds, r.dropWhile Char.isDigit)
        else ([], cs3)
    | e :: r =>
        if e == 'e' || e == 'E' then
          let ds := r.takeWhile Char.isDigit
          if ds.isEmpty then ([], cs3) else (e :: ds, r.dropWhile Char.isDigit)
        else ([], cs3)
    | _ => ([], cs3)
  some (String.mk (neg ++ ip ++ fp ++ ep), cs4)

/-- Insert a key into a Python dict's field list: replace in place if the
key is present (later JSON object members overwrite earlier ones, keeping
the first occurrence's position), append otherwise. -/
def insertKey : List (String × PyJson) → String → PyJson → List (String × PyJson)
  | [], k, v => [(k, v)]
  | (k2, v2) :: rest, k, v =>
      if k2 == k then (k2, v) :: rest else (k2, v2) :: insertKey rest k v

mutual

/-- One JSON value (leading whitespace allowed), returning the value and the
unconsumed input.  Fuel bounds recursion depth; `json_loads` supplies more
fuel than any input can use. -/
def parseValue : Nat → List Char → Option (PyJson × List Char)
  | 0, _ => none
  | fuel + 1, cs =>
    match skipWs cs with
    | 'n' :: 'u' :: 'l' :: 'l' :: rest => some (.null, rest)
    | 't' :: 'r' :: 'u' :: 'e' :: rest => some (.bool true, rest)
    | 'f' :: 'a' :: 'l' :: 's' :: 'e' :: rest => some (.bool false, rest)
    | 'N' :: 'a' :: 'N' :: rest => some (.num "NaN", rest)
    | 'I' :: 'n' :: 'f' :: 'i' :: 'n' :: 'i' :: 't' :: 'y' :: rest =>
        some (.num "Infinity", rest)
    | '-' :: 'I' :: 'n' :: 'f' :: 'i' :: 'n' :: 'i' :: 't' :: 'y' :: rest =>
        some (.num "-Infinity", rest)
    | '"' :: rest =>
        (fun pr => (PyJson.str (String.mk pr.1), pr.2)) <$> parseStrChars rest
    | '[' :: rest =>
        match skipWs rest with
        | ']' :: rest2 => some (.arr [], rest2)
        | cs2 => (fun pr => (PyJson.arr pr.1, pr.2)) <$> parseElems fuel cs2
    | '{' :: rest =>
        match skipWs rest with
        | '}' :: rest2 => some (.obj [], rest2)
        | cs2 =>
            (fun pr =>
              (PyJson.obj (pr.1.foldl (fun acc kv => insertKey acc kv.1 kv.2) []), pr.2))
              <$> parseFields fuel cs2
    | cs2 => (fun pr => (PyJson.num pr.1, pr.2)) <$> parseNumber cs2

/-- One or more comma-separated array elements followed by `]`. -/
def parseElems : Nat → List Char → Option (List PyJson × List Char)
  | 0, _ => none
  | fuel + 1, cs => do
    let (v, cs1) ← parseValue fuel cs
    match skipWs cs1 with
    | ']' :: rest => some ([v], rest)
    | ',' :: cs2 =>
        (fun pr => (v :: pr.1, pr.2)) <$> parseElems fuel cs2
    | _ => none

/-- One or more comma-separated `"key": value` members followed by `}`. -/
def parseFields : Nat → List Char → Option (List (String × PyJson) × List Char)
  | 0, _ => none
  | fuel + 1, cs =>
    match cs with
    | '"' :: csk => do
      let (kchars, cs1) ← parseStrChars csk
      match skipWs cs1 with
      | ':' :: cs2 => do
        let (v, cs3) ← parseValue fuel cs2
        match skipWs cs3 with
        | '}' :: rest => some ([(String.mk kchars, v)], rest)
        | ',' :: cs4 =>
            (fun pr => ((String.mk kchars, v) :: pr.1, pr.2))
              <$> parseFields fuel (skipWs cs4)
        | _ => none
      | _ => none
    | _ => none

end

/-- `json.loads`: decode one JSON document; trailing whitespace allowed,
anything else after the value is an error (`JSONDecodeError` = `none`). -/
def json_loads (s : String) : Option PyJson :=
  match parseValue (s.data.length + 1) s.data with
  | some (v, rest) => if (skipWs rest).isEmpty then some v else none
  | none => none

/-- `os.path.normcase`, applied by `fnmatch.fnmatch` to both arguments:
identity on POSIX; on Windows, lowercase and forward slashes become
backslashes (ASCII lowercasing; no non-ASCII name appears in scope). -/
def normcase (plat : OsPlatform) (s : String) : String :=
  match plat with
  | .windows => String.mk (s.data.map (fun c => if c == '/' then '\\' else c.toLower))
  | _ => s

/-- One compiled element of a shell-glob pattern. -/
inductive GlobItem where
  | lit (c : Char)
  | any
  | star
  | cls (neg : Bool) (singles : List Char) (ranges : List (Char × Char))

/-- Scan to the closing `]` of a character class, returning its contents and
the remainder. -/
def breakOnRBracket : List Char → Option (List Char × List Char)
  | [] => none
  | ']' :: rest => some ([], rest)
  | c :: rest => (fun pr => (c :: pr.1, pr.2)) <$> breakOnRBracket rest

/-- Split off a character class: input is everything after `[`.  Follows
`fnmatch.translate`: a leading `!` negates; a `]` right after that is a
literal member; with no closing `]` the `[` itself is literal (`none`). -/
def splitClass (cs : List Char) : Option (Bool × List Char × List Char) :=
  let (neg, cs1) : Bool × List Char :=
    match cs with
    | '!' :: r => (true, r)
    | _ => (false, cs)
  match cs1 with
  | ']' :: r =>
      (fun pr => (neg, ']' :: pr.1, pr.2)) <$> breakOnRBracket r
  | _ => (fun pr => (neg, pr.1, pr.2)) <$> breakOnRBracket cs1

/-- Interpret class contents as single characters and `a-b` ranges (a
hyphen first or last is a literal member, as in `fnmatch.translate`). -/
def classItems : List Char → List Char × List (Char × Char)
  | [] => ([], [])
  | a :: '-' :: b :: rest =>
      let (ss, rs) := classItems rest
      (ss, (a, b) :: rs)
  | a :: rest =>
      let (ss, rs) := classItems rest
      (a :: ss, rs)

/-- Does one character match a character class? (An inverted range such as
`z-a` matches nothing, as after `fnmatch.translate`'s empty-range removal.) -/
def matchCls (neg : Bool) (singles : List Char) (ranges : List (Char × Char)) (c : Char) : Bool :=
  let mem := singles.contains c
    || ranges.any (fun pr => pr.1.toNat ≤ c.toNat && c.toNat ≤ pr.2.toNat)
  mem != neg

/-- Compile a glob pattern into items.  Fuel-bounded recursion (fuel one
more than the pattern length always suffices, since every step consumes at
least one character). -/
def compileGlob : Nat → List Char → List GlobItem
  | 0, _ => []
  | _, [] => []
  | fuel + 1, '*' :: rest => .star :: compileGlob fuel rest
  | fuel + 1, '?' :: rest => .any :: compileGlob fuel rest
  | fuel + 1, '[' :: rest =>
      match splitClass rest with
      | some (neg, inside, after) =>
          let (ss, rs) := classItems inside
          .cls neg ss rs :: compileGlob fuel after
      | none => .lit '[' :: compileGlob fuel rest
  | fuel + 1, c :: rest => .lit c :: compileGlob fuel rest

/-- Full-string glob matching (the translated regex is anchored and `*`/`?`
match every character, newlines included).  Fuel-bounded: every step
shrinks pattern-plus-text, so fuel one more than their combined length
always suffices. -/
def gmatch : Nat → List GlobItem → List Char → Bool
  | 0, _, _ => false
  | _ + 1, [], [] => true
  | _ + 1, [], _ :: _ => false
  | fuel + 1, .star :: ps, [] => gmatch fuel ps []
  | fuel + 1, .star :: ps, t :: ts =>
      gmatch fuel ps (t :: ts) || gmatch fuel (.star :: ps) ts
  | _ + 1, .any :: _, [] => false
  | fuel + 1, .any :: ps, _ :: ts => gmatch fuel ps ts
  | _ + 1, .lit _ :: _, [] => false
  | fuel + 1, .lit c :: ps, t :: ts => c == t && gmatch fuel ps ts
  | _ + 1, .cls _ _ _ :: _, [] => false
  | fuel + 1, .cls neg ss rs :: ps, t :: ts => matchCls neg ss rs t && gmatch fuel ps ts

/-- `fnmatch.fnmatch(name, pat)`. -/
def fnmatch (plat : OsPlatform) (name pat : String) : Bool :=
  let n := (normcase plat name).data
  let pd := (normcase plat pat).data
  let p := compileGlob (pd.length + 1) pd
  gmatch (p.length + n.length + 1) p n

/-- The `VenvInfo` model from `tools/venv.py` (`packages_count` is the
length of a Python list, hence a natural number). -/
structure VenvInfo where
  name : String
  path : String
  python_version : String
  packages_count : Nat
  is_valid : Bool
deriving DecidableEq

/-- `_is_valid_venv`: the Validator — the platform-derived interpreter path
under the candidate exists on disk.  No process is spawned. -/
def _is_valid_venv (env : Env) (venv_path : FsPath) : Bool :=
  env.fs.fexists (get_venv_python_path env.plat venv_path)

/-- External outcomes of one `_get_venv_info` run: how each of the two
probe subprocesses behaves, and whether the `asyncio.gather` call itself
raises (the source wraps it in `try/except Exception`). -/
structure ProbeEnv where
  versionBehavior : SpawnBehavior
  packagesBehavior : SpawnBehavior
  gatherRaises : Bool
deriving DecidableEq

/-- `_get_venv_info`: the Prober.  Returns the descriptor together with the
number of probe subprocesses spawned during the run; `.error` means a
Python exception escapes the coroutine. -/
def _get_venv_info (env : Env) (penv : ProbeEnv) (venv_path : FsPath) :
    Except PyErr (VenvInfo × Nat) :=
  let name := venv_path.name
  let path_str := venv_path.str
  let python_path := get_venv_python_path env.plat venv_path
  let pip_path := get_venv_pip_path env.plat venv_path
  -- Check if venv is valid first
  if !env.fs.fexists python_path then
    .ok ({ name := name, path := path_str, python_version := "unknown",
           packages_count := 0, is_valid := false }, 0)
  else
    -- Run both commands in parallel, gathered with return_exceptions=True
    let version_result :=
      probeOutcomeOf (String.append python_path.str " --version") penv.versionBehavior
    let packages_result :=
      probeOutcomeOf (String.append pip_path.str " list --format=json") penv.packagesBehavior
    if penv.gatherRaises then
      -- except Exception around the gather: degrade to the sentinel descriptor
      .ok ({ name := name, path := path_str, python_version := "unknown",
             packages_count := 0, is_valid := false }, 2)
    else
      -- Parse Python version
      let python_version :=
        match version_result with
        | .result r =>
            if r.success then
              let version_output := pyStrip r.stdout
              if pyStartswith version_output "Python " then pySlice version_output 7
              else "unknown"
            else "unknown"
        | .exn => "unknown"
      -- Parse package count: only json.JSONDecodeError is caught, so
      -- len() of an unsized decoded value raises a TypeError that escapes
      let packages_count2 : Except PyErr Nat :=
        match packages_result with
        | .result r =>
            if r.success then
              match json_loads r.stdout with
              | some packages =>
                  match pyLen packages with
                  | some n => .ok n
                  | none => .error .typeError
              | none => .ok 0
            else .ok 0
        | .exn => .ok 0
      match packages_count2 with
      | .error e => .error e
      | .ok packages_count =>
          -- Determine if valid
          let is_valid :=
            match version_result with
            | .result r => r.success && python_version != "unknown"
            | .exn => false
          .ok ({ name := name, path := path_str, python_version := python_version,
                 packages_count := packages_count, is_valid := is_valid }, 2)

/-- Python truthiness of the optional `name_pattern` argument (`None` and
the empty string are both falsy). -/
def pyTruthy (s : Option String) : Bool :=
  match s with
  | none => false
  | some s2 => s2 != ""

/-- `_discover_venvs`: the Locator. -/
def _discover_venvs (env : Env) (working_dir : FsPath) (include_global : Bool)
    (name_pattern : Option String) : List FsPath :=
  -- Check local venvs in working_dir
  let local_venv_names := ["venv", ".venv"]
  let localVenvs := local_venv_names.filterMap (fun venv_name =>
    let venv_path := working_dir.child venv_name
    if env.fs.fexists venv_path && env.fs.isDir venv_path && _is_valid_venv env venv_path
    then some venv_path else none)
  -- Check global venvs in ~/.venvs/
  let globalVenvs :=
    if include_global then
      let global_venvs_dir := get_default_venv_location env
      if env.fs.fexists global_venvs_dir && env.fs.isDir global_venvs_dir then
        (env.fs.listDir global_venvs_dir).filterMap (fun child_name =>
          let child := global_venvs_dir.child child_name
          if env.fs.isDir child && _is_valid_venv env child then some child else none)
      else []
    else []
  let discovered := List.append localVenvs globalVenvs
  -- Apply name pattern filter if specified
  if pyTruthy name_pattern then
    discovered.filter (fun venv_path => fnmatch env.plat venv_path.name (name_pattern.getD ""))
  else discovered

/-- Body of `devenv_venv_list` after working-directory resolution: discover
venvs at `work_path`, return `[]` when none are found, otherwise probe each
one (the `asyncio.gather` call there has no `return_exceptions`, so the
first probe exception propagates: modelled by `mapM` over `Except`). -/
def venvListAt (env : Env) (probes : FsPath → ProbeEnv) (work_path : FsPath)
    (include_global : Bool) (name_pattern : Option String) :
    Except PyErr (List VenvInfo) :=
  let venv_paths := _discover_venvs env work_path include_global name_pattern
  if venv_paths.isEmpty then .ok []
  else venv_paths.mapM (fun p => (_get_venv_info env (probes p) p).map Prod.fst)

/-- `devenv_venv_list`: resolve the working directory (`resolve` models
`Path(working_dir).expanduser().resolve()`, `cwd` models `Path.cwd()`);
a non-existent resolved directory is replaced by the process's current
working directory, then discovery and fan-out probing run. -/
def devenv_venv_list (env : Env) (resolve : String → FsPath) (cwd : FsPath)
    (probes : FsPath → ProbeEnv) (working_dir : String) (include_global : Bool)
    (name_pattern : Option String) : Except PyErr (List VenvInfo) :=
  let work_path := resolve working_dir
  let work_path2 := if env.fs.fexists work_path then work_path else cwd
  venvListAt env probes work_path2 include_global name_pattern

/-- External outcomes of one `devenv_venv_create` run: behavior of the
`python --version` check and of the `python -m venv` invocation, the probe
outcomes for the nested `_get_venv_info` call, and the environment as seen
after the creation's filesystem effects. -/
structure CreateEnv where
  pythonCheckBehavior : SpawnBehavior
  createBehavior : SpawnBehavior
  probeEnv : ProbeEnv
  envAfter : Env

/-- `devenv_venv_create` (the `mkdir` of a missing parent directory is a
filesystem effect that does not enter the returned descriptor). -/
def devenv_venv_create (env : Env) (cenv : CreateEnv) (name : String)
    (path : Option FsPath) (python_executable : Option String) (with_pip : Bool) :
    Except PyErr VenvInfo :=
  let parent_dir :=
    match path with
    | none => get_default_venv_location env
    | some p => p
  let target_path := parent_dir.child name
  -- Check if venv already exists
  if env.fs.fexists target_path then
    if _is_valid_venv env target_path then
      (_get_venv_info env cenv.probeEnv target_path).map Prod.fst
    else
      .ok { name := name, path := target_path.str, python_version := "unknown",
            packages_count := 0, is_valid := false }
  else
    let python_exe := python_executable.getD "python"
    -- Check if the Python executable exists
    match run_command (String.append python_exe " --version") cenv.pythonCheckBehavior with
    | .error e => .error e
    | .ok python_check =>
      if !python_check.success then
        .ok { name := name, path := target_path.str,
              python_version :=
                String.append
                  (String.append "Error: Python executable \x27" python_exe)
                  "\x27 not found",
              packages_count := 0, is_valid := false }
      else
        -- Create the venv
        let venv_cmd :=
          String.append python_exe
            (String.append " -m venv"
              (String.append (if with_pip then "" else " --without-pip")
                (String.append " " target_path.str)))
        match run_command venv_cmd cenv.createBehavior with
        | .error e => .error e
        | .ok result =>
          if !result.success then
            let error_msg :=
              if result.stderr != "" then result.stderr
              else if result.stdout != "" then result.stdout
              else "Unknown error"
            .ok { name := name, path := target_path.str,
                  python_version := String.append "Error: " error_msg,
                  packages_count := 0, is_valid := false }
          else
            (_get_venv_info cenv.envAfter cenv.probeEnv target_path).map Prod.fst

/-! ### Operational model of `asyncio.gather`

`asyncio.gather` allocates one result slot per awaited task; tasks finish in
some completion order (a permutation of the task indices) and each writes
its own slot; the returned list reads the slots in task order.  The
completion order therefore never reorders the output. -/

/-- Completed (index, result) pairs in completion order `sched`. -/
def gatherPairs (tasks : Nat → Option α) (sched : List Nat) : List (Nat × α) :=
  sched.filterMap (fun i => (tasks i).map (fun r => (i, r)))

/-- Read slot `i` among the completed pairs. -/
def slotLookup (pairs : List (Nat × α)) (i : Nat) : Option α :=
  (pairs.find? (fun q => q.1 == i)).map Prod.snd

/-- The list `asyncio.gather` returns: slots read in task order. -/
def gatherOutput (n : Nat) (tasks : Nat → Option α) (sched : List Nat) :
    Option (List α) :=
  (List.range n).mapM (slotLookup (gatherPairs tasks sched))

/-- The `i`-th task submitted by `devenv_venv_list`'s fan-out: probe the
`i`-th discovered path. -/
def probeTask (env : Env) (probes : FsPath → ProbeEnv) (venv_paths : List FsPath)
    (i : Nat) : Option (Except PyErr VenvInfo) :=
  (venv_paths.get? i).map (fun p => (_get_venv_info env (probes p) p).map Prod.fst)

instance {ε α : Type} [DecidableEq ε] [DecidableEq α] : DecidableEq (Except ε α) :=
  fun x y =>
    match x, y with
    | .ok a, .ok b =>
        match decEq a b with
        | isTrue h => isTrue (h ▸ rfl)
        | isFalse h => isFalse (fun hc => h (Except.ok.inj hc))
    | .error a, .error b =>
        match decEq a b with
        | isTrue h => isTrue (h ▸ rfl)
        | isFalse h => isFalse (fun hc => h (Except.error.inj hc))
    | .ok _, .error _ => isFalse (fun hc => Except.noConfusion hc)
    | .error _, .ok _ => isFalse (fun hc => Except.noConfusion hc)

/-! ### Observables of one probe run

The following helpers restate, on `ProbeEnv` alone, the values the Prober
computes from each probe's outcome; they mirror the corresponding
expressions of `_get_venv_info` composed with `run_command` (in particular
a probe's stdout is stripped once by `run_command` and once more by
`_get_venv_info`). -/

/-- `python_version` as parsed by the Prober from the version probe. -/
def parsedVersion (penv : ProbeEnv) : String :=
  match penv.versionBehavior with
  | .completes rc out _ =>
      if rc == 0 then
        let version_output := pyStrip (pyStrip out)
        if pyStartswith version_output "Python " then pySlice version_output 7
        else "unknown"
      else "unknown"
  | _ => "unknown"

/-- Did the version probe complete without exception with exit code 0? -/
def versionSucceeded (penv : ProbeEnv) : Bool :=
  match penv.versionBehavior with
  | .completes rc _ _ => rc == 0
  | _ => false

/-- `packages_count` as parsed by the Prober from the manifest probe, in
the cases where `len()` does not raise. -/
def manifestCount (penv : ProbeEnv) : Nat :=
  match penv.packagesBehavior with
  | .completes rc out _ =>
      if rc == 0 then
        match json_loads (pyStrip out) with
        | some packages => (pyLen packages).getD 0
        | none => 0
      else 0
  | _ => 0

/-- The manifest probe completed with exit code 0 but its output is not
valid JSON (`json.loads` raises `JSONDecodeError`, which the Prober
catches). -/
def manifestMalformed (penv : ProbeEnv) : Bool :=
  match penv.packagesBehavior with
  | .completes rc out _ => rc == 0 && (json_loads (pyStrip out)).isNone
  | _ => false

/-- The manifest probe completed with exit code 0 and its output is valid
JSON of an unsized shape (number, boolean or null): the one combination in
which `len(packages)` raises a `TypeError` that nothing catches. -/
def manifestLenRaises (penv : ProbeEnv) : Bool :=
  match penv.packagesBehavior with
  | .completes rc out _ =>
      rc == 0 &&
        (match json_loads (pyStrip out) with
         | some packages => (pyLen packages).isNone
         | none => false)
  | _ => false

/-! ### Spec-side decompositions for the Locator (used to state C7) -/

/-- The local candidates the spec describes: the two fixed names, checked
in the fixed order `venv`, `.venv`, each included when it exists, is a
directory and passes the Validator. -/
def specLocalCandidates (env : Env) (working_dir : FsPath) : List FsPath :=
  List.append
    (if env.fs.fexists (working_dir.child "venv") && env.fs.isDir (working_dir.child "venv")
        && _is_valid_venv env (working_dir.child "venv")
     then [working_dir.child "venv"] else [])
    (if env.fs.fexists (working_dir.child ".venv") && env.fs.isDir (working_dir.child ".venv")
        && _is_valid_venv env (working_dir.child ".venv")
     then [working_dir.child ".venv"] else [])

/-- The global candidates the spec describes: every immediate subdirectory
of the global registry directory that passes the Validator, in
directory-listing order; zero candidates when the flag is unset or the
registry directory does not exist. -/
def specGlobalCandidates (env : Env) (include_global : Bool) : List FsPath :=
  if include_global then
    let g := get_default_venv_location env
    if env.fs.fexists g && env.fs.isDir g then
      (env.fs.listDir g).filterMap (fun child_name =>
        let child := g.child child_name
        if env.fs.isDir child && _is_valid_venv env child then some child else none)
    else []
  else []

/-! ### Concrete environments used by witnesses and counterexamples -/

/-- A filesystem with nothing on it. -/
def emptyEnv : Env :=
  { plat := .linux,
    fs := { fexists := fun _ => false, isDir := fun _ => false, listDir := fun _ => [] },
    home := ["home", "u"] }

/-- A filesystem holding the single valid venv `/envs/alpha`. -/
def alphaEnv : Env :=
  { plat := .linux,
    fs := { fexists := fun p =>
              decide (p = ["envs", "alpha", "bin", "python"] ∨ p = ["envs", "alpha"]),
            isDir := fun p => decide (p = ["envs", "alpha"]),
            listDir := fun _ => [] },
    home := ["home", "u"] }

/-- Both probes succeed: `Python 3.11.5` and a two-entry manifest. -/
def happyProbes : ProbeEnv :=
  { versionBehavior := .completes 0 "Python 3.11.5" "",
    packagesBehavior := .completes 0
      "[\x7b\"name\":\"pip\",\"version\":\"23.0\"\x7d,\x7b\"name\":\"six\",\"version\":\"1.16\"\x7d]" "",
    gatherRaises := false }

/-- Manifest probe succeeds but prints `5`: valid JSON that is not sized. -/
def badJsonProbes : ProbeEnv :=
  { versionBehavior := .completes 0 "Python 3.11.5" "",
    packagesBehavior := .completes 0 "5" "",
    gatherRaises := false }

/-- Version probe succeeds printing `Python unknown`. -/
def unknownVersionProbes : ProbeEnv :=
  { versionBehavior := .completes 0 "Python unknown" "",
    packagesBehavior := .completes 0 "[]" "",
    gatherRaises := false }

/-- Working interpreter, package manager printing malformed output. -/
def malformedProbes : ProbeEnv :=
  { versionBehavior := .completes 0 "Python 3.11.5" "",
    packagesBehavior := .completes 0 "not valid json" "",
    gatherRaises := false }

/-- Version probe times out, manifest probe succeeds with two entries. -/
def timeoutProbes : ProbeEnv :=
  { versionBehavior := .timesOut,
    packagesBehavior := .completes 0
      "[\x7b\"name\":\"pip\",\"version\":\"23.0\"\x7d,\x7b\"name\":\"six\",\"version\":\"1.16\"\x7d]" "",
    gatherRaises := false }

/-- A filesystem with a local venv `/wd/venv` and a global registry
`/home/u/.venvs` listing `proj-a`, `proj-b`, `other` (all valid). -/
def discEnv : Env :=
  { plat := .linux,
    fs := { fexists := fun p => decide (p ∈
              [["home", "u", ".venvs"],
               ["home", "u", ".venvs", "proj-a", "bin", "python"],
               ["home", "u", ".venvs", "proj-b", "bin", "python"],
               ["home", "u", ".venvs", "other", "bin", "python"],
               ["wd", "venv"], ["wd", "venv", "bin", "python"]]),
            isDir := fun p => decide (p ∈
              [["home", "u", ".venvs"],
               ["home", "u", ".venvs", "proj-a"], ["home", "u", ".venvs", "proj-b"],
               ["home", "u", ".venvs", "other"], ["wd", "venv"]]),
            listDir := fun p =>
              if p = ["home", "u", ".venvs"] then ["proj-a", "proj-b", "other"] else [] },
    home := ["home", "u"] }

/-- A resolver that maps every string to a non-existent path. -/
def badResolve : String → FsPath := fun _ => ["nope"]

/-- Creation outcomes where both the interpreter check and the `-m venv`
invocation succeed, and the post-creation probe finds `/envs/alpha`. -/
def createEnvOk : CreateEnv :=
  { pythonCheckBehavior := .completes 0 "Python 3.11.5" "",
    createBehavior := .completes 0 "" "",
    probeEnv := happyProbes,
    envAfter := alphaEnv }

/-! ### Characterization lemmas for the Prober -/

/-- Short-circuit branch: a rejected identifier yields the sentinel
descriptor and spawns nothing. -/
theorem get_venv_info_invalid_eq (env : Env) (penv : ProbeEnv) (p : FsPath)
    (h : _is_valid_venv env p = false) :
    _get_venv_info env penv p =
      .ok ({ name := p.name, path := p.str, python_version := "unknown",
             packages_count := 0, is_valid := false }, 0) := by
  unfold _is_valid_venv at h
  unfold _get_venv_info
  simp [h]

/-- Degenerate branch: the gather call itself raising is caught and yields
the sentinel descriptor (after both probes were spawned). -/
theorem get_venv_info_gather_exn_eq (env : Env) (penv : ProbeEnv) (p : FsPath)
    (h1 : _is_valid_venv env p = true) (h2 : penv.gatherRaises = true) :
    _get_venv_info env penv p =
      .ok ({ name := p.name, path := p.str, python_version := "unknown",
             packages_count := 0, is_valid := false }, 2) := by
  unfold _is_valid_venv at h1
  unfold _get_venv_info
  simp [h1, h2]

/-- Main branch: for a validated identifier, when the manifest probe's
output does not make `len()` raise, the Prober returns the descriptor
assembled from the two probe outcomes. -/
theorem get_venv_info_ok_eq (env : Env) (penv : ProbeEnv) (p : FsPath)
    (h1 : _is_valid_venv env p = true) (h2 : penv.gatherRaises = false)
    (h3 : manifestLenRaises penv = false) :
    _get_venv_info env penv p =
      .ok ({ name := p.name, path := p.str,
             python_version := parsedVersion penv,
             packages_count := manifestCount penv,
             is_valid := versionSucceeded penv && parsedVersion penv != "unknown" }, 2) := by
  unfold _is_valid_venv at h1
  obtain ⟨vb, pb, gr⟩ := penv
  replace h2 : gr = false := h2
  subst h2
  replace h3 : manifestLenRaises ⟨vb, pb, false⟩ = false := h3
  unfold _get_venv_info
  unfold manifestLenRaises at h3
  simp only [h1, Bool.not_true, if_false, ite_true, ite_false, Bool.false_eq_true]
  cases pb with
  | completes prc pout perr =>
      cases hj : json_loads (pyStrip pout) with
      | none =>
          cases vb <;>
            simp_all [probeOutcomeOf, run_command, parsedVersion, versionSucceeded,
              manifestCount, CommandResult.success] <;>
            try (split <;> simp_all) <;> try (split_ifs at * <;> simp_all) <;> try (split_ifs at * <;> simp_all)
      | some v =>
          cases hl : pyLen v with
          | none =>
              cases vb <;>
                simp_all [probeOutcomeOf, run_command, parsedVersion, versionSucceeded,
                  manifestCount, CommandResult.success] <;>
                try (split <;> simp_all) <;> try (split_ifs at * <;> simp_all) <;> try (split_ifs at * <;> simp_all) <;> try (split_ifs at * <;> simp_all)
          | some n =>
              cases vb <;>
                simp_all [probeOutcomeOf, run_command, parsedVersion, versionSucceeded,
                  manifestCount, CommandResult.success] <;>
                try (split <;> simp_all) <;> try (split_ifs at * <;> simp_all) <;> try (split_ifs at * <;> simp_all) <;> try (split_ifs at * <;> simp_all)
  | timesOut =>
      cases vb <;>
        simp_all [probeOutcomeOf, run_command, parsedVersion, versionSucceeded,
          manifestCount, CommandResult.success] <;>
        try (split <;> simp_all) <;> try (split_ifs at * <;> simp_all)
  | spawnNotFound f =>
      cases vb <;>
        simp_all [probeOutcomeOf, run_command, parsedVersion, versionSucceeded,
          manifestCount, CommandResult.success] <;>
        try (split <;> simp_all) <;> try (split_ifs at * <;> simp_all)
  | spawnFails =>
      cases vb <;>
        simp_all [probeOutcomeOf, run_command, parsedVersion, versionSucceeded,
          manifestCount, CommandResult.success] <;>
        try (split <;> simp_all) <;> try (split_ifs at * <;> simp_all)

/-- Escape branch: a validated identifier whose manifest probe succeeds
with valid JSON of an unsized shape makes the Prober raise a `TypeError`. -/
theorem get_venv_info_raises_eq (env : Env) (penv : ProbeEnv) (p : FsPath)
    (h1 : _is_valid_venv env p = true) (h2 : penv.gatherRaises = false)
    (h3 : manifestLenRaises penv = true) :
    _get_venv_info env penv p = .error .typeError := by
  unfold _is_valid_venv at h1
  obtain ⟨vb, pb, gr⟩ := penv
  replace h2 : gr = false := h2
  subst h2
  replace h3 : manifestLenRaises ⟨vb, pb, false⟩ = true := h3
  unfold _get_venv_info
  unfold manifestLenRaises at h3
  simp only [h1, Bool.not_true, if_false, ite_true, ite_false, Bool.false_eq_true]
  cases pb with
  | completes prc pout perr =>
      cases hj : json_loads (pyStrip pout) with
      | none =>
          cases vb <;>
            simp_all [probeOutcomeOf, run_command, CommandResult.success] <;>
            try (split <;> simp_all) <;> try (split_ifs at * <;> simp_all) <;> try (split_ifs at * <;> simp_all)
      | some v =>
          cases hl : pyLen v with
          | none =>
              cases vb <;>
                simp_all [probeOutcomeOf, run_command, CommandResult.success] <;>
                try (split <;> simp_all) <;> try (split_ifs at * <;> simp_all) <;> try (split_ifs at * <;> simp_all) <;> try (split_ifs at * <;> simp_all)
          | some n =>
              cases vb <;>
                simp_all [probeOutcomeOf, run_command, CommandResult.success] <;>
                try (split <;> simp_all) <;> try (split_ifs at * <;> simp_all) <;> try (split_ifs at * <;> simp_all) <;> try (split_ifs at * <;> simp_all)
  | timesOut =>
      cases vb <;>
        simp_all [probeOutcomeOf, run_command, CommandResult.success] <;>
        try (split <;> simp_all) <;> try (split_ifs at * <;> simp_all)
  | spawnNotFound f =>
      cases vb <;>
        simp_all [probeOutcomeOf, run_command, CommandResult.success] <;>
        try (split <;> simp_all) <;> try (split_ifs at * <;> simp_all)
  | spawnFails =>
      cases vb <;>
        simp_all [probeOutcomeOf, run_command, CommandResult.success] <;>
        try (split <;> simp_all) <;> try (split_ifs at * <;> simp_all)

/-! ### Generic helper lemmas -/

theorem except_map_ok {ε α β : Type} (f : α → β) (x : Except ε α) (y : β)
    (h : x.map f = .ok y) : ∃ a, x = .ok a ∧ f a = y := by
  cases x with
  | ok a => exact ⟨a, rfl, by simpa [Except.map] using h⟩
  | error e => simp [Except.map] at h

theorem except_mapM_ok_mem {α β : Type} (f : α → Except PyErr β) :
    ∀ (l : List α) (out : List β), l.mapM f = .ok out →
      ∀ y ∈ out, ∃ x ∈ l, f x = .ok y := by
  intro l
  induction l with
  | nil =>
      intro out h y hy
      simp only [List.mapM_nil, pure] at h
      cases h
      cases hy
  | cons a t ih =>
      intro out h y hy
      rw [List.mapM_cons] at h
      cases hfa : f a with
      | error e => rw [hfa] at h; simp [Except.bind, bind] at h
      | ok b =>
          rw [hfa] at h
          cases hmt : List.mapM f t with
          | error e => rw [hmt] at h; simp [Except.bind, bind, pure] at h
          | ok bs =>
              rw [hmt] at h
              simp only [bind, Except.bind, pure, Except.pure] at h
              cases h
              rcases List.mem_cons.mp hy with hy1 | hy2
              · exact ⟨a, List.mem_cons_self a t, by rw [hfa, hy1]⟩
              · obtain ⟨x, hx, hfx⟩ := ih bs hmt y hy2
                exact ⟨x, List.mem_cons_of_mem a hx, hfx⟩

theorem option_mapM_eq_map {α β : Type} (f : α → Option β) (g : α → β) :
    ∀ (l : List α), (∀ x ∈ l, f x = some (g x)) → l.mapM f = some (l.map g) := by
  intro l
  induction l with
  | nil => intro _; rfl
  | cons a t ih =>
      intro h
      rw [List.mapM_cons, h a (List.mem_cons_self a t),
        ih (fun x hx => h x (List.mem_cons_of_mem a hx))]
      rfl

theorem slotLookup_gatherPairs {α : Type} (tasks : Nat → Option α) :
    ∀ (sched : List Nat) (i : Nat) (r : α), i ∈ sched → tasks i = some r →
      slotLookup (gatherPairs tasks sched) i = some r := by
  intro sched
  induction sched with
  | nil => intro i r hi _; cases hi
  | cons j js ih =>
      intro i r hi ht
      by_cases hji : j = i
      · subst hji
        simp [gatherPairs, slotLookup, List.filterMap_cons, ht, List.find?,
          beq_self_eq_true]
      · cases htj : tasks j with
        | none =>
            have hstep : gatherPairs tasks (j :: js) = gatherPairs tasks js := by
              simp [gatherPairs, List.filterMap_cons, htj]
            rw [hstep]
            rcases List.mem_cons.mp hi with h | h
            · exact absurd h.symm hji
            · exact ih i r h ht
        | some s =>
            have hstep : gatherPairs tasks (j :: js) = (j, s) :: gatherPairs tasks js := by
              simp [gatherPairs, List.filterMap_cons, htj]
            rw [hstep]
            have hne : ((j, s).1 == i) = false := beq_eq_false_iff_ne.mpr hji
            have hstep2 : slotLookup ((j, s) :: gatherPairs tasks js) i
                = slotLookup (gatherPairs tasks js) i := by
              simp [slotLookup, List.find?_cons, hne]
            rw [hstep2]
            rcases List.mem_cons.mp hi with h | h
            · exact absurd h.symm hji
            · exact ih i r h ht

theorem map_range_getD {α β : Type} (d : α) (F : α → β) :
    ∀ (l : List α), (List.range l.length).map (fun i => F (l.getD i d)) = l.map F := by
  intro l
  induction l with
  | nil => simp
  | cons a t ih =>
      simp only [List.length_cons, List.range_succ_eq_map, List.map_cons,
        List.map_map, List.getD_cons_zero]
      congr 1

theorem isPrefixOf_self_append (p t : List Char) : List.isPrefixOf p (p ++ t) = true := by
  induction p with
  | nil => simp [List.isPrefixOf]
  | cons a as ih => simp [List.isPrefixOf, ih]

theorem pyStartswith_append (pre v : String) :
    pyStartswith (String.append pre v) pre = true := by
  cases pre
  cases v
  simp [pyStartswith, String.append, isPrefixOf_self_append]

theorem pySlice_python_prefix (v : String) :
    pySlice (String.append "Python " v) 7 = v := by
  cases v
  rfl

/-- Malformed manifest output never reaches the `len()` call, and parses to
a component count of zero. -/
theorem manifestMalformed_no_raise (penv : ProbeEnv)
    (h : manifestMalformed penv = true) :
    manifestLenRaises penv = false ∧ manifestCount penv = 0 := by
  unfold manifestMalformed at h
  unfold manifestLenRaises manifestCount
  cases hp : penv.packagesBehavior with
  | completes rc out err =>
      rw [hp] at h
      rw [Bool.and_eq_true] at h
      obtain ⟨h1, h2⟩ := h
      rw [Option.isNone_iff_eq_none] at h2
      simp [h1, h2]
  | timesOut => rw [hp] at h; cases h
  | spawnNotFound f => rw [hp] at h; cases h
  | spawnFails => rw [hp] at h; cases h

/-- The observables parsed from the version probe depend only on the
version probe's behavior. -/
theorem version_obs_congr (penv penv2 : ProbeEnv)
    (h : penv2.versionBehavior = penv.versionBehavior) :
    parsedVersion penv2 = parsedVersion penv ∧
      versionSucceeded penv2 = versionSucceeded penv := by
  unfold parsedVersion versionSucceeded
  rw [h]
  exact ⟨rfl, rfl⟩

/-! ### Claim theorems -/

/-- C2: for every identifier rejected by the Validator, the Prober returns
immediately with `python_version="unknown"`, `packages_count=0`,
`is_valid=false`, and spawns no subprocess (the spawn counter is 0). -/
theorem claimC2_validator_short_circuit (env : Env) (penv : ProbeEnv) (p : FsPath)
    (h : _is_valid_venv env p = false) :
    _get_venv_info env penv p =
      .ok ({ name := p.name, path := p.str, python_version := "unknown",
             packages_count := 0, is_valid := false }, 0) :=
  get_venv_info_invalid_eq env penv p h

theorem claimC2_witness :
    _is_valid_venv emptyEnv ["envs", "beta"] = false ∧
    _get_venv_info emptyEnv happyProbes ["envs", "beta"] =
      .ok ({ name := "beta", path := "/envs/beta", python_version := "unknown",
             packages_count := 0, is_valid := false }, 0) :=
  ⟨by decide, claimC2_validator_short_circuit emptyEnv happyProbes ["envs", "beta"] (by decide)⟩

/-- C1 counterexample: with the manifest probe succeeding and printing `5`
(valid JSON, but not a JSON array — an unsized value), `_get_venv_info`
raises an uncaught `TypeError` instead of returning a descriptor, so the
Prober is not total and `packages_count` is not 0 in this case. -/
theorem claimC1_counterexample :
    _get_venv_info alphaEnv badJsonProbes ["envs", "alpha"] = .error .typeError := by
  decide

/-- C1 (amended): the Prober returns a descriptor and lets no exception
escape for every combination of probe outcomes EXCEPT when the manifest
probe succeeds with valid JSON of an unsized shape (number, boolean,
null), in which case the `len()` call raises an uncaught `TypeError`;
malformed manifest JSON yields `packages_count = 0` and leaves `is_valid`
exactly as any other manifest outcome would (the descriptor is not thereby
marked unusable). -/
theorem claimC1_prober_totality_amended :
    (∀ (env : Env) (penv : ProbeEnv) (p : FsPath), manifestLenRaises penv = false →
        ∃ r, _get_venv_info env penv p = .ok r)
    ∧ (∀ (env : Env) (penv : ProbeEnv) (p : FsPath) (info : VenvInfo) (n : Nat),
        manifestMalformed penv = true →
        _get_venv_info env penv p = .ok (info, n) →
        info.packages_count = 0 ∧
          ∀ (penv2 : ProbeEnv) (info2 : VenvInfo) (n2 : Nat),
            penv2.versionBehavior = penv.versionBehavior →
            penv2.gatherRaises = penv.gatherRaises →
            _get_venv_info env penv2 p = .ok (info2, n2) →
            info2.is_valid = info.is_valid)
    ∧ (∀ (env : Env) (penv : ProbeEnv) (p : FsPath),
        _is_valid_venv env p = true → penv.gatherRaises = false →
        manifestLenRaises penv = true →
        _get_venv_info env penv p = .error .typeError) := by
  refine ⟨?_, ?_, ?_⟩
  · intro env penv p h
    cases hv : _is_valid_venv env p with
    | false => exact ⟨_, get_venv_info_invalid_eq env penv p hv⟩
    | true =>
        cases hg : penv.gatherRaises with
        | false => exact ⟨_, get_venv_info_ok_eq env penv p hv hg h⟩
        | true => exact ⟨_, get_venv_info_gather_exn_eq env penv p hv hg⟩
  · intro env penv p info n hm hok
    obtain ⟨hlen, hcount⟩ := manifestMalformed_no_raise penv hm
    constructor
    · cases hv : _is_valid_venv env p with
      | false =>
          rw [get_venv_info_invalid_eq env penv p hv] at hok
          simp only [Except.ok.injEq, Prod.mk.injEq] at hok
          rw [← hok.1]
      | true =>
          cases hg : penv.gatherRaises with
          | false =>
              rw [get_venv_info_ok_eq env penv p hv hg hlen] at hok
              simp only [Except.ok.injEq, Prod.mk.injEq] at hok
              rw [← hok.1, hcount]
          | true =>
              rw [get_venv_info_gather_exn_eq env penv p hv hg] at hok
              simp only [Except.ok.injEq, Prod.mk.injEq] at hok
              rw [← hok.1]
    · intro penv2 info2 n2 hvb hgr hok2
      cases hv : _is_valid_venv env p with
      | false =>
          rw [get_venv_info_invalid_eq env penv p hv] at hok
          rw [get_venv_info_invalid_eq env penv2 p hv] at hok2
          simp only [Except.ok.injEq, Prod.mk.injEq] at hok hok2
          rw [← hok.1, ← hok2.1]
      | true =>
          cases hg : penv.gatherRaises with
          | false =>
              have hg2 : penv2.gatherRaises = false := by rw [hgr, hg]
              cases hlen2 : manifestLenRaises penv2 with
              | true =>
                  rw [get_venv_info_raises_eq env penv2 p hv hg2 hlen2] at hok2
                  cases hok2
              | false =>
                  rw [get_venv_info_ok_eq env penv p hv hg hlen] at hok
                  rw [get_venv_info_ok_eq env penv2 p hv hg2 hlen2] at hok2
                  simp only [Except.ok.injEq, Prod.mk.injEq] at hok hok2
                  obtain ⟨hpv, hvs⟩ := version_obs_congr penv penv2 hvb
                  rw [← hok.1, ← hok2.1]
                  simp [hpv, hvs]
          | true =>
              have hg2 : penv2.gatherRaises = true := by rw [hgr, hg]
              rw [get_venv_info_gather_exn_eq env penv p hv hg] at hok
              rw [get_venv_info_gather_exn_eq env penv2 p hv hg2] at hok2
              simp only [Except.ok.injEq, Prod.mk.injEq] at hok hok2
              rw [← hok.1, ← hok2.1]
  · intro env penv p hv hg hlen
    exact get_venv_info_raises_eq env penv p hv hg hlen

theorem claimC1_witness :
    manifestLenRaises malformedProbes = false ∧
    (∃ r, _get_venv_info alphaEnv malformedProbes ["envs", "alpha"] = .ok r) ∧
    manifestMalformed malformedProbes = true ∧
    VenvInfo.packages_count
      { name := "alpha", path := "/envs/alpha", python_version := "3.11.5",
        packages_count := 0, is_valid := true } = 0 ∧
    manifestLenRaises badJsonProbes = true ∧
    _get_venv_info alphaEnv badJsonProbes ["envs", "alpha"] = .error .typeError := by
  refine ⟨by decide,
    claimC1_prober_totality_amended.1 alphaEnv malformedProbes ["envs", "alpha"] (by decide),
    by decide, ?_, by decide,
    claimC1_prober_totality_amended.2.2 alphaEnv badJsonProbes ["envs", "alpha"]
      (by decide) (by decide) (by decide)⟩
  exact (claimC1_prober_totality_amended.2.1 alphaEnv malformedProbes ["envs", "alpha"]
    _ 2 (by decide) (by decide)).1

/-- C3 counterexample: `/envs/alpha` whose version probe succeeds printing
`Python unknown` (the literal prefix `"Python "` followed by the version
string `"unknown"`) and whose manifest probe succeeds with the empty JSON
array gets a descriptor with `is_valid = false`, not `true` as the claim
requires for every `"Python "`-prefixed output. -/
theorem claimC3_counterexample :
    _get_venv_info alphaEnv unknownVersionProbes ["envs", "alpha"] =
      .ok ({ name := "alpha", path := "/envs/alpha", python_version := "unknown",
             packages_count := 0, is_valid := false }, 2) := by
  decide

/-- C3 (amended): for a validated identifier whose version probe succeeds
with output `"Python " ++ v` where the version string `v` is NOT itself the
sentinel `"unknown"`, and whose manifest probe succeeds with a JSON array
of entries, the descriptor carries the final path segment as name, `v` as
version, the array length as count, and `is_valid = true`. -/
theorem claimC3_happy_path_amended (env : Env) (penv : ProbeEnv) (p : FsPath)
    (v vout verr pout perr : String) (xs : List PyJson)
    (h1 : _is_valid_venv env p = true) (h2 : penv.gatherRaises = false)
    (hv : penv.versionBehavior = .completes 0 vout verr)
    (hvo : pyStrip (pyStrip vout) = String.append "Python " v)
    (hvu : v ≠ "unknown")
    (hp : penv.packagesBehavior = .completes 0 pout perr)
    (hj : json_loads (pyStrip pout) = some (.arr xs)) :
    _get_venv_info env penv p =
      .ok ({ name := p.name, path := p.str, python_version := v,
             packages_count := xs.length, is_valid := true }, 2) := by
  have hlen : manifestLenRaises penv = false := by
    unfold manifestLenRaises
    rw [hp]
    simp [hj, pyLen]
  have hpv : parsedVersion penv = v := by
    unfold parsedVersion
    rw [hv]
    simp only [hvo, pyStartswith_append, pySlice_python_prefix]
    simp
  have hvs : versionSucceeded penv = true := by
    unfold versionSucceeded
    rw [hv]
    rfl
  have hmc : manifestCount penv = xs.length := by
    unfold manifestCount
    rw [hp]
    simp [hj, pyLen]
  rw [get_venv_info_ok_eq env penv p h1 h2 hlen, hpv, hvs, hmc]
  have hbne : (v != "unknown") = true := bne_iff_ne.mpr hvu
  simp [hbne]

theorem claimC3_witness :
    _is_valid_venv alphaEnv ["envs", "alpha"] = true ∧
    pyStrip (pyStrip "Python 3.11.5") = String.append "Python " "3.11.5" ∧
    _get_venv_info alphaEnv happyProbes ["envs", "alpha"] =
      .ok ({ name := "alpha", path := "/envs/alpha", python_version := "3.11.5",
             packages_count := 2, is_valid := true }, 2) := by
  refine ⟨by decide, by decide, ?_⟩
  exact claimC3_happy_path_amended alphaEnv happyProbes ["envs", "alpha"]
    "3.11.5" "Python 3.11.5" ""
    "[\x7b\"name\":\"pip\",\"version\":\"23.0\"\x7d,\x7b\"name\":\"six\",\"version\":\"1.16\"\x7d]" ""
    [PyJson.obj [("name", PyJson.str "pip"), ("version", PyJson.str "23.0")],
     PyJson.obj [("name", PyJson.str "six"), ("version", PyJson.str "1.16")]]
    (by decide) (by decide) rfl (by decide) (by decide) rfl rfl

/-- C4: for every validated identifier (and a gather call that does not
itself raise), `is_valid` is true iff the version probe completed without
exception with exit code 0 AND the parsed version is not the `"unknown"`
sentinel; and a working interpreter combined with a package manager whose
output is malformed yields `is_valid = true` and `packages_count = 0`
simultaneously. -/
theorem claimC4_is_valid_iff :
    (∀ (env : Env) (penv : ProbeEnv) (p : FsPath) (info : VenvInfo) (n : Nat),
        _is_valid_venv env p = true → penv.gatherRaises = false →
        _get_venv_info env penv p = .ok (info, n) →
        (info.is_valid = true ↔
          (versionSucceeded penv = true ∧ parsedVersion penv ≠ "unknown")))
    ∧ (∀ (env : Env) (penv : ProbeEnv) (p : FsPath) (info : VenvInfo) (n : Nat),
        _is_valid_venv env p = true → penv.gatherRaises = false →
        versionSucceeded penv = true → parsedVersion penv ≠ "unknown" →
        manifestMalformed penv = true →
        _get_venv_info env penv p = .ok (info, n) →
        info.is_valid = true ∧ info.packages_count = 0) := by
  constructor
  · intro env penv p info n hv hg hok
    cases hlen : manifestLenRaises penv with
    | true =>
        rw [get_venv_info_raises_eq env penv p hv hg hlen] at hok
        cases hok
    | false =>
        rw [get_venv_info_ok_eq env penv p hv hg hlen] at hok
        simp only [Except.ok.injEq, Prod.mk.injEq] at hok
        rw [← hok.1]
        simp [Bool.and_eq_true, bne_iff_ne]
  · intro env penv p info n hv hg hvs hpv hm hok
    obtain ⟨hlen, hcount⟩ := manifestMalformed_no_raise penv hm
    rw [get_venv_info_ok_eq env penv p hv hg hlen] at hok
    simp only [Except.ok.injEq, Prod.mk.injEq] at hok
    rw [← hok.1]
    have hbne : (parsedVersion penv != "unknown") = true := bne_iff_ne.mpr hpv
    simp [hvs, hbne, hcount]

theorem claimC4_witness :
    _is_valid_venv alphaEnv ["envs", "alpha"] = true ∧
    versionSucceeded malformedProbes = true ∧
    parsedVersion malformedProbes ≠ "unknown" ∧
    manifestMalformed malformedProbes = true ∧
    _get_venv_info alphaEnv malformedProbes ["envs", "alpha"] =
      .ok ({ name := "alpha", path := "/envs/alpha", python_version := "3.11.5",
             packages_count := 0, is_valid := true }, 2) ∧
    VenvInfo.is_valid
      { name := "alpha", path := "/envs/alpha", python_version := "3.11.5",
        packages_count := 0, is_valid := true } = true ∧
    VenvInfo.packages_count
      { name := "alpha", path := "/envs/alpha", python_version := "3.11.5",
        packages_count := 0, is_valid := true } = 0 := by
  refine ⟨by decide, by decide, by decide, by decide, by decide, ?_, ?_⟩
  · exact (claimC4_is_valid_iff.2 alphaEnv malformedProbes ["envs", "alpha"] _ 2
      (by decide) (by decide) (by decide) (by decide) (by decide) (by decide)).1
  · exact (claimC4_is_valid_iff.2 alphaEnv malformedProbes ["envs", "alpha"] _ 2
      (by decide) (by decide) (by decide) (by decide) (by decide) (by decide)).2

/-- C9: a version-probe timeout is re-raised by `run_command` as a
distinct error, captured by the gather as a failure outcome for that probe
alone; the sibling manifest probe's successful JSON-array result still
determines `packages_count`, and the descriptor computation completes with
`python_version = "unknown"` and `is_valid = false`. -/
theorem claimC9_timeout_isolation :
    (∀ cmd : String, run_command cmd SpawnBehavior.timesOut = .error .timeoutError ∧
        probeOutcomeOf cmd SpawnBehavior.timesOut = .exn)
    ∧ (∀ (env : Env) (penv : ProbeEnv) (p : FsPath) (pout perr : String) (xs : List PyJson),
        _is_valid_venv env p = true → penv.gatherRaises = false →
        penv.versionBehavior = .timesOut →
        penv.packagesBehavior = .completes 0 pout perr →
        json_loads (pyStrip pout) = some (.arr xs) →
        _get_venv_info env penv p =
          .ok ({ name := p.name, path := p.str, python_version := "unknown",
                 packages_count := xs.length, is_valid := false }, 2)) := by
  constructor
  · intro cmd
    exact ⟨rfl, rfl⟩
  · intro env penv p pout perr xs hv hg hvb hp hj
    have hlen : manifestLenRaises penv = false := by
      unfold manifestLenRaises
      rw [hp]
      simp [hj, pyLen]
    have hpv : parsedVersion penv = "unknown" := by
      unfold parsedVersion
      rw [hvb]
    have hvs : versionSucceeded penv = false := by
      unfold versionSucceeded
      rw [hvb]
    have hmc : manifestCount penv = xs.length := by
      unfold manifestCount
      rw [hp]
      simp [hj, pyLen]
    rw [get_venv_info_ok_eq env penv p hv hg hlen, hpv, hvs, hmc]
    simp

theorem claimC9_witness :
    run_command "cmd" SpawnBehavior.timesOut = .error .timeoutError ∧
    probeOutcomeOf "cmd" SpawnBehavior.timesOut = .exn ∧
    _is_valid_venv alphaEnv ["envs", "alpha"] = true ∧
    _get_venv_info alphaEnv timeoutProbes ["envs", "alpha"] =
      .ok ({ name := "alpha", path := "/envs/alpha", python_version := "unknown",
             packages_count := 2, is_valid := false }, 2) := by
  refine ⟨(claimC9_timeout_isolation.1 "cmd").1, (claimC9_timeout_isolation.1 "cmd").2,
    by decide, ?_⟩
  exact claimC9_timeout_isolation.2 alphaEnv timeoutProbes ["envs", "alpha"]
    "[\x7b\"name\":\"pip\",\"version\":\"23.0\"\x7d,\x7b\"name\":\"six\",\"version\":\"1.16\"\x7d]" ""
    [PyJson.obj [("name", PyJson.str "pip"), ("version", PyJson.str "23.0")],
     PyJson.obj [("name", PyJson.str "six"), ("version", PyJson.str "1.16")]]
    (by decide) (by decide) rfl rfl rfl

/-- Every descriptor the Prober returns satisfies the usability invariant. -/
theorem venv_info_invariant (env : Env) (penv : ProbeEnv) (p : FsPath)
    (info : VenvInfo) (n : Nat) (h : _get_venv_info env penv p = .ok (info, n)) :
    info.is_valid = true → info.python_version ≠ "unknown" := by
  intro hval
  cases hv : _is_valid_venv env p with
  | false =>
      rw [get_venv_info_invalid_eq env penv p hv] at h
      simp only [Except.ok.injEq, Prod.mk.injEq] at h
      rw [← h.1] at hval
      cases hval
  | true =>
      cases hg : penv.gatherRaises with
      | true =>
          rw [get_venv_info_gather_exn_eq env penv p hv hg] at h
          simp only [Except.ok.injEq, Prod.mk.injEq] at h
          rw [← h.1] at hval
          cases hval
      | false =>
          cases hlen : manifestLenRaises penv with
          | true =>
              rw [get_venv_info_raises_eq env penv p hv hg hlen] at h
              cases h
          | false =>
              rw [get_venv_info_ok_eq env penv p hv hg hlen] at h
              simp only [Except.ok.injEq, Prod.mk.injEq] at h
              rw [← h.1] at hval ⊢
              replace hval : (versionSucceeded penv
                  && (parsedVersion penv != "unknown")) = true := hval
              rw [Bool.and_eq_true] at hval
              show parsedVersion penv ≠ "unknown"
              exact bne_iff_ne.mp hval.2

/-- C5: every `VenvInfo` constructed by probing, by venv creation, or in a
discovery listing satisfies: `is_valid = true` implies
`python_version ≠ "unknown"`. -/
theorem claimC5_descriptor_invariant :
    (∀ (env : Env) (penv : ProbeEnv) (p : FsPath) (info : VenvInfo) (n : Nat),
        _get_venv_info env penv p = .ok (info, n) →
        info.is_valid = true → info.python_version ≠ "unknown")
    ∧ (∀ (env : Env) (cenv : CreateEnv) (nm : String) (path : Option FsPath)
        (pexe : Option String) (wp : Bool) (info : VenvInfo),
        devenv_venv_create env cenv nm path pexe wp = .ok info →
        info.is_valid = true → info.python_version ≠ "unknown")
    ∧ (∀ (env : Env) (resolve : String → FsPath) (cwd : FsPath)
        (probes : FsPath → ProbeEnv) (wd : String) (ig : Bool)
        (pat : Option String) (infos : List VenvInfo),
        devenv_venv_list env resolve cwd probes wd ig pat = .ok infos →
        ∀ info ∈ infos, info.is_valid = true → info.python_version ≠ "unknown") := by
  refine ⟨venv_info_invariant, ?_, ?_⟩
  · intro env cenv nm path pexe wp info h hval
    unfold devenv_venv_create at h
    rcases path with _ | pp <;>
    dsimp only at h <;>
    [skip; skip] <;>
    (split at h
     · split at h
       · obtain ⟨pr, hpr, hinfo⟩ := except_map_ok _ _ _ h
         have hinv := venv_info_invariant env cenv.probeEnv _ pr.1 pr.2 (by rw [hpr])
         rw [hinfo] at hinv
         exact hinv hval
       · simp only [Except.ok.injEq] at h
         rw [← h] at hval
         cases hval
     · split at h
       · cases h
       · split at h
         · simp only [Except.ok.injEq] at h
           rw [← h] at hval
           cases hval
         · split at h
           · cases h
           · split at h
             · simp only [Except.ok.injEq] at h
               rw [← h] at hval
               cases hval
             · obtain ⟨pr, hpr, hinfo⟩ := except_map_ok _ _ _ h
               have hinv := venv_info_invariant cenv.envAfter cenv.probeEnv _ pr.1 pr.2
                 (by rw [hpr])
               rw [hinfo] at hinv
               exact hinv hval)
  · intro env resolve cwd probes wd ig pat infos h info hmem hval
    unfold devenv_venv_list venvListAt at h
    dsimp only at h
    split at h <;>
    (split at h
     · simp only [Except.ok.injEq] at h
       rw [← h] at hmem
       cases hmem
     · obtain ⟨x, _, hfx⟩ := except_mapM_ok_mem _ _ infos h info hmem
       replace hfx : Except.map Prod.fst (_get_venv_info env (probes x) x) =
           Except.ok info := hfx
       obtain ⟨pr, hpr, hinfo⟩ :=
         except_map_ok Prod.fst (_get_venv_info env (probes x) x) info hfx
       have hinv := venv_info_invariant env (probes x) x pr.1 pr.2 (by rw [hpr])
       rw [hinfo] at hinv
       exact hinv hval)

theorem claimC5_witness :
    _get_venv_info alphaEnv happyProbes ["envs", "alpha"] =
      .ok ({ name := "alpha", path := "/envs/alpha", python_version := "3.11.5",
             packages_count := 2, is_valid := true }, 2) ∧
    devenv_venv_create emptyEnv createEnvOk "alpha" (some ["envs"]) none true =
      .ok { name := "alpha", path := "/envs/alpha", python_version := "3.11.5",
            packages_count := 2, is_valid := true } ∧
    ("3.11.5" : String) ≠ "unknown" := by
  refine ⟨by decide, by decide, ?_⟩
  exact claimC5_descriptor_invariant.2.1 emptyEnv createEnvOk "alpha" (some ["envs"])
    none true
    { name := "alpha", path := "/envs/alpha", python_version := "3.11.5",
      packages_count := 2, is_valid := true }
    (by decide) (by decide)

/-- C6: the Fan-out Coordinator's gather fills one slot per task and reads
the slots back in task order, so for any completion order (any permutation
of the task indices) the output is the list of the K probe results in the
order of the K input identifiers. -/
theorem claimC6_fanout_order (env : Env) (probes : FsPath → ProbeEnv)
    (venv_paths : List FsPath) (sched : List Nat)
    (hperm : sched.Perm (List.range venv_paths.length)) :
    gatherOutput venv_paths.length (probeTask env probes venv_paths) sched =
      some (venv_paths.map (fun p => (_get_venv_info env (probes p) p).map Prod.fst)) ∧
    (venv_paths.map (fun p => (_get_venv_info env (probes p) p).map Prod.fst)).length
      = venv_paths.length := by
  constructor
  · unfold gatherOutput
    have hyp : ∀ i ∈ List.range venv_paths.length,
        slotLookup (gatherPairs (probeTask env probes venv_paths) sched) i =
          some ((fun j =>
            (_get_venv_info env (probes (venv_paths.getD j ([] : FsPath)))
              (venv_paths.getD j ([] : FsPath))).map Prod.fst) i) := by
      intro i hi
      have hin : i < venv_paths.length := List.mem_range.mp hi
      have hmem : i ∈ sched := hperm.mem_iff.mpr (List.mem_range.mpr hin)
      apply slotLookup_gatherPairs _ sched i _ hmem
      have hget : venv_paths.get? i = some (venv_paths.getD i ([] : FsPath)) := by
        rw [List.getD_eq_get?, List.get?_eq_get hin]
        rfl
      unfold probeTask
      rw [hget]
      rfl
    rw [option_mapM_eq_map _ _ _ hyp]
    exact congrArg some (map_range_getD ([] : FsPath)
      (fun p => (_get_venv_info env (probes p) p).map Prod.fst) venv_paths)
  · rw [List.length_map]

theorem claimC6_witness :
    List.Perm [1, 0] (List.range 2) ∧
    gatherOutput 2
      (probeTask discEnv (fun _ => happyProbes)
        [["wd", "venv"], ["home", "u", ".venvs", "proj-a"]]) [1, 0] =
      some ([["wd", "venv"], ["home", "u", ".venvs", "proj-a"]].map
        (fun p => (_get_venv_info discEnv ((fun _ => happyProbes) p) p).map Prod.fst)) ∧
    gatherOutput 2
      (probeTask discEnv (fun _ => happyProbes)
        [["wd", "venv"], ["home", "u", ".venvs", "proj-a"]]) [1, 0] =
      some [.ok { name := "venv", path := "/wd/venv", python_version := "3.11.5",
                  packages_count := 2, is_valid := true },
            .ok { name := "proj-a", path := "/home/u/.venvs/proj-a",
                  python_version := "3.11.5", packages_count := 2, is_valid := true }] := by
  refine ⟨by decide, ?_, by decide⟩
  exact (claimC6_fanout_order discEnv (fun _ => happyProbes)
    [["wd", "venv"], ["home", "u", ".venvs", "proj-a"]] [1, 0] (by decide)).1

/-- The Locator without a pattern is the ordered union: fixed-name local
candidates first, then the validated registry subdirectories in listing
order. -/
theorem discover_decomp (env : Env) (wd : FsPath) (ig : Bool) :
    _discover_venvs env wd ig none =
      List.append (specLocalCandidates env wd) (specGlobalCandidates env ig) := by
  unfold _discover_venvs specLocalCandidates specGlobalCandidates pyTruthy
  dsimp only
  simp only [List.filterMap_cons, List.filterMap_nil]
  split_ifs <;> simp_all

/-- Every candidate the Locator returns passes the Validator. -/
theorem discover_all_valid (env : Env) (wd : FsPath) (ig : Bool) (pat : Option String) :
    ∀ p ∈ _discover_venvs env wd ig pat, _is_valid_venv env p = true := by
  intro p hp
  unfold _discover_venvs at hp
  dsimp only at hp
  have hp2 : p ∈ List.append
      (["venv", ".venv"].filterMap (fun venv_name =>
        if env.fs.fexists (wd.child venv_name) && env.fs.isDir (wd.child venv_name)
            && _is_valid_venv env (wd.child venv_name)
        then some (wd.child venv_name) else none))
      (if ig then
        (if env.fs.fexists (get_default_venv_location env)
            && env.fs.isDir (get_default_venv_location env) then
          (env.fs.listDir (get_default_venv_location env)).filterMap (fun child_name =>
            if env.fs.isDir ((get_default_venv_location env).child child_name)
                && _is_valid_venv env ((get_default_venv_location env).child child_name)
            then some ((get_default_venv_location env).child child_name) else none)
        else []) else []) := by
    split at hp
    · exact (List.mem_filter.mp hp).1
    · exact hp
  rcases List.mem_append.mp hp2 with hl | hg
  · rw [List.mem_filterMap] at hl
    obtain ⟨nm, _, hf⟩ := hl
    split_ifs at hf with hc
    cases hf
    simp only [Bool.and_eq_true] at hc
    exact hc.2
  · split at hg
    · split at hg
      · rw [List.mem_filterMap] at hg
        obtain ⟨nm, _, hf⟩ := hg
        split_ifs at hf with hc
        cases hf
        simp only [Bool.and_eq_true] at hc
        exact hc.2
      · cases hg
    · cases hg

/-- A working directory none of whose children exist contributes zero local
candidates. -/
theorem discover_no_local (env : Env) (wd : FsPath) (ig : Bool)
    (h : ∀ nm, env.fs.fexists (wd.child nm) = false) :
    _discover_venvs env wd ig none = specGlobalCandidates env ig := by
  rw [discover_decomp]
  have hloc : specLocalCandidates env wd = [] := by
    unfold specLocalCandidates
    rw [h "venv", h ".venv"]
    simp
  rw [hloc]
  rfl

/-- A non-existent registry directory contributes zero global candidates. -/
theorem discover_no_global (env : Env) (wd : FsPath)
    (h : env.fs.fexists (get_default_venv_location env) = false) :
    _discover_venvs env wd true none = specLocalCandidates env wd := by
  rw [discover_decomp]
  have hglob : specGlobalCandidates env true = [] := by
    unfold specGlobalCandidates
    dsimp only
    rw [h]
    simp
  rw [hglob]
  simp

/-- C7: without a pattern, the Locator returns the fixed-name local
candidates (in the fixed order, both when both validate) followed by the
validated immediate subdirectories of the global registry in
directory-listing order with no further sorting; every returned candidate
passes the Validator; a working directory with no existing children, or a
non-existent registry directory, contributes zero candidates and never an
error (the function is total by construction). -/
theorem claimC7_locator_structure :
    (∀ (env : Env) (wd : FsPath) (ig : Bool),
        _discover_venvs env wd ig none =
          List.append (specLocalCandidates env wd) (specGlobalCandidates env ig))
    ∧ (∀ (env : Env) (wd : FsPath) (ig : Bool) (pat : Option String),
        ∀ p ∈ _discover_venvs env wd ig pat, _is_valid_venv env p = true)
    ∧ (∀ (env : Env) (wd : FsPath) (ig : Bool),
        (∀ nm, env.fs.fexists (wd.child nm) = false) →
        _discover_venvs env wd ig none = specGlobalCandidates env ig)
    ∧ (∀ (env : Env) (wd : FsPath),
        env.fs.fexists (get_default_venv_location env) = false →
        _discover_venvs env wd true none = specLocalCandidates env wd) :=
  ⟨discover_decomp, discover_all_valid, discover_no_local, discover_no_global⟩

theorem claimC7_witness :
    _discover_venvs discEnv ["wd"] true none =
      List.append (specLocalCandidates discEnv ["wd"]) (specGlobalCandidates discEnv true) ∧
    _discover_venvs discEnv ["wd"] true none =
      [["wd", "venv"], ["home", "u", ".venvs", "proj-a"],
       ["home", "u", ".venvs", "proj-b"], ["home", "u", ".venvs", "other"]] ∧
    (∀ nm, emptyEnv.fs.fexists (FsPath.child ["wd"] nm) = false) ∧
    _discover_venvs emptyEnv ["wd"] true none = specGlobalCandidates emptyEnv true ∧
    emptyEnv.fs.fexists (get_default_venv_location emptyEnv) = false ∧
    _discover_venvs emptyEnv ["wd"] true none = specLocalCandidates emptyEnv ["wd"] :=
  ⟨claimC7_locator_structure.1 discEnv ["wd"] true, by decide, fun _ => rfl,
   claimC7_locator_structure.2.2.1 emptyEnv ["wd"] true (fun _ => rfl), rfl,
   claimC7_locator_structure.2.2.2 emptyEnv ["wd"] rfl⟩

/-- C8 counterexample: the empty string is a supplied pattern, but Python's
truthiness test `if name_pattern:` treats it as absent, so no filtering
happens — while shell-glob matching against `""` would drop every
candidate whose name is non-empty. -/
theorem claimC8_counterexample :
    ¬ (_discover_venvs discEnv ["wd"] true (some "") =
        (_discover_venvs discEnv ["wd"] true none).filter
          (fun p => fnmatch discEnv.plat p.name "")) := by
  decide

/-- C8 (amended): when a NON-EMPTY name pattern is supplied, the validated
union is filtered by matching each candidate's final path segment against
the pattern with shell-glob semantics, dropped candidates disappearing
silently and the survivors' relative order preserved (an empty pattern is
treated as absent and no filtering occurs); in particular a registry with
`proj-a`, `proj-b`, `other` and pattern `"proj-*"` yields exactly the two
`proj-` venvs in directory-listing relative order. -/
theorem claimC8_pattern_filter_amended :
    (∀ (env : Env) (wd : FsPath) (ig : Bool) (pat : String), pat ≠ "" →
        _discover_venvs env wd ig (some pat) =
          (_discover_venvs env wd ig none).filter
            (fun p => fnmatch env.plat p.name pat))
    ∧ _discover_venvs discEnv ["wd"] true (some "proj-*") =
        [["home", "u", ".venvs", "proj-a"], ["home", "u", ".venvs", "proj-b"]] := by
  constructor
  · intro env wd ig pat hpat
    have hbne : (pat != "") = true := bne_iff_ne.mpr hpat
    unfold _discover_venvs pyTruthy
    dsimp only
    simp only [hbne, Option.getD_some, if_true, Bool.false_eq_true, if_false]
  · decide

theorem claimC8_witness :
    ("proj-*" : String) ≠ "" ∧
    _discover_venvs discEnv ["wd"] true (some "proj-*") =
      (_discover_venvs discEnv ["wd"] true none).filter
        (fun p => fnmatch discEnv.plat p.name "proj-*") :=
  ⟨by decide, claimC8_pattern_filter_amended.1 discEnv ["wd"] true "proj-*" (by decide)⟩

/-- C10: when the resolved `working_dir` argument does not exist, the
listing does not fail; it substitutes the process's current working
directory and performs the discovery-and-probe pipeline there. -/
theorem claimC10_nonexistent_workdir (env : Env) (resolve : String → FsPath)
    (cwd : FsPath) (probes : FsPath → ProbeEnv) (working_dir : String)
    (ig : Bool) (pat : Option String)
    (h : env.fs.fexists (resolve working_dir) = false) :
    devenv_venv_list env resolve cwd probes working_dir ig pat =
      venvListAt env probes cwd ig pat := by
  unfold devenv_venv_list
  simp only [h, Bool.false_eq_true, if_false]

theorem claimC10_witness :
    discEnv.fs.fexists (badResolve "missing") = false ∧
    devenv_venv_list discEnv badResolve ["wd"] (fun _ => timeoutProbes) "missing"
        false none =
      venvListAt discEnv (fun _ => timeoutProbes) ["wd"] false none ∧
    venvListAt discEnv (fun _ => timeoutProbes) ["wd"] false none =
      .ok [{ name := "venv", path := "/wd/venv", python_version := "unknown",
             packages_count := 2, is_valid := false }] :=
  ⟨by decide,
   claimC10_nonexistent_workdir discEnv badResolve ["wd"] (fun _ => timeoutProbes)
     "missing" false none (by decide),
   by decide⟩

end DevenvMcp
